import Mathlib

set_option maxRecDepth 40000

/-
Verification of the flutter_gen scaffolder (src/main.rs) against its
natural-language specification.

The Rust program is embedded shallowly:

* `pascal_case` and the template producers are pure string functions and are
  translated directly; Rust `char::to_ascii_uppercase` / `to_ascii_lowercase`
  coincide with Lean's `Char.toUpper` / `Char.toLower` (both only move the
  basic-latin letters by 32).
* `PathBuf::join` is modeled as joining with `"/"` (the program only ever
  runs the relevant paths through Unix-style joins).
* `str::to_lowercase` is modeled character-wise with `Char.toLower`; the only
  comparison made with it in the program is against the ASCII token "auth".
* `str::trim` is modeled with the Unicode White_Space predicate used by
  Rust's `char::is_whitespace`.
* Filesystem effects are modeled by the ordered list of (path, content)
  pairs passed to `fs::write`, and the ordered list of directories passed to
  `fs::create_dir_all`.
* Child processes are modeled by an environment mapping each spawned command
  to either a spawn failure or an exit code; `Command::status()?` propagates
  only the spawn failure and binds (then discards) the exit code.
-/

/-- `sub` occurs as a contiguous substring of `s` (Rust `str::contains`). -/
def strContainsB (s sub : String) : Bool := decide (sub.data <:+: s.data)

/-- Propositional form of `strContainsB`. -/
def StrContains (s sub : String) : Prop := sub.data <:+: s.data

/-- Rust `Vec::join`: interleave `sep` between the elements. -/
def joinSep (sep : String) : List String → String
  | [] => ""
  | [a] => a
  | a :: rest => a ++ sep ++ joinSep sep rest

/-- `Path::new(a).join(b)` on Unix-style paths. -/
def joinP (a b : String) : String := a ++ "/" ++ b

/-- The Unicode White_Space predicate, as used by Rust `char::is_whitespace`
(and hence by `str::trim`). -/
def rustIsWhitespace (c : Char) : Bool :=
  decide (c.toNat ∈ ([9, 10, 11, 12, 13, 32, 0x85, 0xA0, 0x1680,
      0x2028, 0x2029, 0x202F, 0x205F, 0x3000] : List Nat)
    ∨ (0x2000 ≤ c.toNat ∧ c.toNat ≤ 0x200A))

/-- Rust `str::trim`: strip leading and trailing whitespace. -/
def rustTrim (s : String) : String :=
  String.mk (((s.data.dropWhile rustIsWhitespace).reverse.dropWhile rustIsWhitespace).reverse)

/-- Rust `str::to_lowercase`, character-wise. (The program only compares the
result against the ASCII token `"auth"`; the multi-character special casings
of `to_lowercase` never map anything onto plain `a`/`u`/`t`/`h`, so the
character-wise ASCII model is faithful on every comparison the program makes.) -/
def rustToLowercase (s : String) : String := String.mk (s.data.map Char.toLower)

/-- `pascal_case`'s loop (src/main.rs:812): a `capitalize` flag starts true,
is set by `'_'` (which is dropped), and is cleared after emitting a character. -/
def pascalAux : Bool → List Char → List Char
  | _, [] => []
  | capitalize, c :: rest =>
    if c = '_' then pascalAux true rest
    else if capitalize then Char.toUpper c :: pascalAux false rest
    else c :: pascalAux false rest

/-- `pascal_case` (src/main.rs:812). -/
def pascal_case (s : String) : String := String.mk (pascalAux true s.data)

/-- Modelled from the spec: "the first character and every character
immediately following an underscore is uppercased (ASCII); underscores are
dropped; all other characters pass through unchanged". The `prev` argument
carries the previous character of the original input (`none` at the start). -/
def pascalSpecAux : Option Char → List Char → List Char
  | _, [] => []
  | prev, c :: rest =>
    if c = '_' then pascalSpecAux (some '_') rest
    else if prev = none ∨ prev = some '_' then Char.toUpper c :: pascalSpecAux (some c) rest
    else c :: pascalSpecAux (some c) rest

/-- Modelled from the spec: reference PascalCase mapping (see `pascalSpecAux`). -/
def pascalSpecFn (s : String) : String := String.mk (pascalSpecAux none s.data)

/-- `Feature` (src/main.rs:18). -/
structure Feature where
  name : String
  layers : List String
deriving DecidableEq

/-- `Feature::new` (src/main.rs:24). -/
def Feature.new (name : String) : Feature :=
  ⟨name, ["data", "presentation", "domain", "logic"]⟩

/-- One iteration of the feature-entry loop (src/main.rs:69-86). `none` means
the loop terminates (input empty after trimming); otherwise the updated
feature list. Rust `str::is_empty` on the trimmed input is equality with `""`. -/
def feature_entry_step (feature_name : String) (features : List Feature) : Option (List Feature) :=
  if rustTrim feature_name = "" then none
  else if rustToLowercase feature_name = "auth" then
    some (features ++ [Feature.new "login", Feature.new "register", Feature.new "forgot_password"])
  else some (features ++ [Feature.new feature_name])

/-- The feature list obtained from the single entry `auth`. -/
def authExpansionFeatures : List Feature :=
  [Feature.new "login", Feature.new "register", Feature.new "forgot_password"]
def coreAppThemeContent : String :=
  "import 'package:flutter/material.dart';\nimport 'package:shadcn_ui/shadcn_ui.dart';\n\nclass AppColors \x7b\n  AppColors._init();\n  static AppColors instance = AppColors._init();\n\n  final _theme = ShadThemeData(\n    brightness: Brightness.light,\n    colorScheme: const ShadSlateColorScheme.light(),\n  );\n\n  final _themeDark = ShadThemeData(\n    brightness: Brightness.dark,\n    colorScheme: const ShadSlateColorScheme.dark(),\n  );\n\n  ShadThemeData get theme => _theme;\n  ShadThemeData get themeDark => _themeDark;\n\x7d"

def coreAppColorsContent : String :=
  "class AppColors \x7b\n  // TODO: Define app colors\n\x7d"

def coreAppStringsContent : String :=
  "class AppStrings \x7b\n  // TODO: Define app strings\n\x7d"

def coreLoggingContent : String :=
  "class Logger \x7b\n  // TODO: Implement logging\n\x7d"

def corePermissionsContent : String :=
  "import 'dart:io' show Platform, exit;\n\nimport 'package:device_info_plus/device_info_plus.dart';\nimport 'package:flutter/material.dart';\nimport 'package:flutter/services.dart';\nimport 'package:hooks_riverpod/hooks_riverpod.dart';\nimport 'package:permission_handler/permission_handler.dart';\n\nfinal permissionUtilProvider =\n    StateNotifierProvider<PermissionUtil, bool>((ref) => PermissionUtil());\n\nclass PermissionUtil extends StateNotifier<bool> \x7b\n  PermissionUtil() : super(false);\n\n  Future<List<Permission>> get _requiredPermissions async \x7b\n    if (Platform.isAndroid) \x7b\n      if (await _getAndroidSdkVersion() >= 33) \x7b\n        // Android 13 and above\n        return [\n          Permission.photos,\n          Permission.videos,\n          Permission.activityRecognition,\n        ];\n      \x7d else if (await _getAndroidSdkVersion() >= 29) \x7b\n        // Android 10-12\n        return [\n          Permission.storage,\n          Permission.activityRecognition,\n        ];\n      \x7d else \x7b\n        // Below Android 10\n        return [\n          Permission.storage,\n          Permission.activityRecognition,\n        ];\n      \x7d\n    \x7d else if (Platform.isIOS) \x7b\n      return [\n        Permission.photos,\n        Permission.sensors,\n      ];\n    \x7d\n    return [];\n  \x7d\n\n  // Helper method to get Android SDK version\n  Future<int> _getAndroidSdkVersion() async \x7b\n    try \x7b\n      if (Platform.isAndroid) \x7b\n        final deviceInfo = DeviceInfoPlugin();\n        final androidInfo = await deviceInfo.androidInfo;\n        return androidInfo.version.sdkInt;\n      \x7d\n    \x7d catch (e) \x7b\n      print('Error getting Android SDK version: $e');\n    \x7d\n    return 29; // Default to Android 10 for safety\n  \x7d\n\n  Future<bool> requestPermissions() async \x7b\n    try \x7b\n      final permissions = await _requiredPermissions;\n      if (permissions.isEmpty) return false;\n\n      final statuses = await permissions.request();\n      return statuses.values.every((status) => status.isGranted);\n    \x7d catch (e) \x7b\n      print('Error requesting permissions: $e');\n      return false;\n    \x7d\n  \x7d\n\n  Future<bool> checkPermissions() async \x7b\n    try \x7b\n      final permissions = await _requiredPermissions;\n      if (permissions.isEmpty) return false;\n\n      final statuses = await Future.wait(\n        permissions.map((permission) => permission.status),\n      );\n      return statuses.every((status) => status.isGranted);\n    \x7d catch (e) \x7b\n      print('Error checking permissions: $e');\n      return false;\n    \x7d\n  \x7d\n\n  Future<void> openSettings() async \x7b\n    try \x7b\n      await openAppSettings();\n    \x7d catch (e) \x7b\n      print('Error opening settings: $e');\n    \x7d\n  \x7d\n\n  Future<void> checkAndRequestPermissions(\n    BuildContext context,\n    WidgetRef ref,\n  ) async \x7b\n    final hasPermissions = await checkPermissions();\n    if (!hasPermissions) \x7b\n      final granted = await requestPermissions();\n      if (!granted) \x7b\n        // Show dialog if permissions are not granted\n        if (context.mounted) \x7b\n          await showPermissionDialog(context, ref);\n        \x7d\n      \x7d else \x7b\n        state = true;\n      \x7d\n    \x7d else \x7b\n      state = true;\n    \x7d\n  \x7d\n\n  Future<void> showPermissionDialog(BuildContext context, WidgetRef ref) async \x7b\n    return showDialog(\n      context: context,\n      barrierDismissible: false,\n      builder: (BuildContext context) \x7b\n        return AlertDialog(\n          content: const Text(\n              'This app needs access to storage and activity recognition to track your steps. '\n              'Please grant the required permissions in settings.'),\n          actions: <Widget>[\n            TextButton(\n              child: const Text('Open Settings'),\n              onPressed: () async \x7b\n                Navigator.of(context).pop();\n                await openSettings();\n                if (context.mounted) \x7b\n                  await checkAndRequestPermissions(context, ref);\n                \x7d\n              \x7d,\n            ),\n            TextButton(\n              child: const Text('Exit App'),\n              onPressed: () async \x7b\n                try \x7b\n                  await SystemChannels.platform\n                      .invokeMethod('SystemNavigator.pop');\n                \x7d catch (e) \x7b\n                  exit(0);\n                \x7d\n              \x7d,\n            ),\n          ],\n        );\n      \x7d,\n    );\n  \x7d\n\x7d"

def coreAuthServiceContent : String :=
  "import 'package:logging/logging.dart';\nimport 'package:supabase_flutter/supabase_flutter.dart';\n\nclass AuthService \x7b\n  AuthService(this.supabase);\n  final SupabaseClient supabase;\n  final _logger = Logger('AuthService');\n\n  // Sign In\n  Future<bool> signIn(String email, String password) async \x7b\n    try \x7b\n      final response = await supabase.auth.signInWithPassword(\n        email: email,\n        password: password,\n      );\n      _logger.info('Sign in response: $response');\n      return response.user != null;\n    \x7d on AuthException catch (e) \x7b\n      _logger.severe('Sign in error: $\x7be.message\x7d');\n      return false;\n    \x7d catch (e) \x7b\n      _logger.severe('Sign in error: $e');\n      return false;\n    \x7d\n  \x7d\n\n  // Sign Up\n  Future<bool> signUp(String email, String password) async \x7b\n    try \x7b\n      final response = await supabase.auth.signUp(\n        email: email,\n        password: password,\n      );\n      _logger.info('Sign up response: $response');\n      return response.user != null;\n    \x7d on AuthException catch (e) \x7b\n      _logger.severe('Sign up error: $\x7be.message\x7d');\n      return false;\n    \x7d on PostgrestException catch (e) \x7b\n      _logger.severe('Database error: $\x7be.message\x7d');\n      return false;\n    \x7d catch (e) \x7b\n      _logger.severe('Sign up error: $e');\n      return false;\n    \x7d\n  \x7d\n\n  // Forgot password\n  Future<bool> resetPassword(String email) async \x7b\n    try \x7b\n      await supabase.auth.resetPasswordForEmail(email);\n      _logger.info('Password reset email sent to: $email');\n      return true;\n    \x7d catch (e) \x7b\n      _logger.severe('Reset password error: $e');\n      return false;\n    \x7d\n  \x7d\n\n  // Sign Out\n  Future<bool> signOut() async \x7b\n    try \x7b\n      await supabase.auth.signOut();\n      _logger.info('User signed out successfully');\n      return true;\n    \x7d catch (e) \x7b\n      _logger.severe('Sign out error: $e');\n      return false;\n    \x7d\n  \x7d\n\n  // Get Current User\n  User? getCurrentUser() => supabase.auth.currentUser;\n\n  // Check if Logged In\n  bool isLoggedIn() => supabase.auth.currentUser != null;\n\x7d"

def authServiceProviderContent (project_name : String) : String :=
  "import 'package:hooks_riverpod/hooks_riverpod.dart';\nimport 'package:riverpod_annotation/riverpod_annotation.dart';\nimport 'package:" ++ project_name ++ "/core/services/auth_service.dart';\nimport 'package:supabase_flutter/supabase_flutter.dart';\n\npart 'auth_service_provider.g.dart';\n\n@Riverpod(keepAlive: true)\nAuthService authService(Ref ref) \x7b\n  final supabase = Supabase.instance.client;\n  return AuthService(supabase);\n\x7d"

def customButtonContent : String :=
  "import 'package:flutter/material.dart';\n\nclass CustomButton extends StatelessWidget \x7b\n  final String text;\n  final VoidCallback onPressed;\n  final bool isLoading;\n\n  const CustomButton(\x7b\n    super.key,\n    required this.text,\n    required this.onPressed,\n    this.isLoading = false,\n  \x7d);\n\n  @override\n  Widget build(BuildContext context) \x7b\n    return ElevatedButton(\n      onPressed: isLoading ? null : onPressed,\n      child: isLoading\n          ? const CircularProgressIndicator()\n          : Text(text),\n    );\n  \x7d\n\x7d"

def generate_screen_template (feature_name : String) : String :=
  let p := pascal_case feature_name
  "import 'package:flutter/material.dart';\n\nclass " ++ p ++ "Screen extends StatelessWidget \x7b\n  const " ++ p ++ "Screen(\x7bsuper.key\x7d);\n\n  @override\n  Widget build(BuildContext context) \x7b\n    return Scaffold(\n      appBar: AppBar(\n        title: const Text('" ++ p ++ "'),\n      ),\n      body: const Center(\n        child: Text('" ++ p ++ "Screen'),\n      ),\n    );\n  \x7d\n\x7d"

def generate_controller_template (feature_name : String) : String :=
  let p := pascal_case feature_name
  "import 'package:flutter_riverpod/flutter_riverpod.dart';\n\nfinal " ++ feature_name ++ "Controller = StateNotifierProvider<" ++ p ++ "Notifier, " ++ p ++ "State>((ref) \x7b\n  return " ++ p ++ "Notifier();\n\x7d);\n\nclass " ++ p ++ "State \x7b\n  // TODO: Implement state\n\x7d\n\nclass " ++ p ++ "Notifier extends StateNotifier<" ++ p ++ "State> \x7b\n  " ++ p ++ "Notifier() : super(" ++ p ++ "State());\n\n  // TODO: Implement methods\n\x7d"

def generate_app_template_content : String :=
  "import 'package:flutter/material.dart';\nimport 'package:flutter_riverpod/flutter_riverpod.dart';\nimport 'package:go_router/go_router.dart';\nimport 'package:shadcn_ui/shadcn_ui.dart';\nimport '../core/constants/app_colors.dart';\n\nfinal themeModeProvider = StateProvider<ThemeMode>((ref) => ThemeMode.dark);\n\nclass App extends ConsumerWidget \x7b\n  const App(\x7bsuper.key\x7d);\n\n  @override\n  Widget build(BuildContext context, WidgetRef ref) \x7b\n    final themeMode = ref.watch(themeModeProvider);\n    final goRouter = ref.watch(goRouterProvider);\n\n    return ShadApp.router(\n      debugShowCheckedModeBanner: false,\n      darkTheme: AppColors.instance.themeDark,\n      theme: AppColors.instance.theme,\n      themeMode: themeMode,\n      routerConfig: goRouter,\n    );\n  \x7d\n\x7d"

def mainSupabaseImports : String :=
  "import 'package:flutter_dotenv/flutter_dotenv.dart';\nimport 'package:supabase_flutter/supabase_flutter.dart';"

def mainSupabaseInit : String :=
  "  // Ensure Flutter binding is initialized\n  WidgetsFlutterBinding.ensureInitialized();\n  // Load .env file\n  await dotenv.load();\n  // Supabase init\n  await Supabase.initialize(\n    url: dotenv.env['SUPABASE_URL'] ?? '',\n    anonKey: dotenv.env['SUPABASE_ANON_KEY'] ?? '',\n  );"

def generate_main_template (use_supabase : Bool) : String :=
  let supabase_imports := if use_supabase then mainSupabaseImports else ""
  let supabase_init := if use_supabase then mainSupabaseInit else ""
  "import 'package:flutter/material.dart';\nimport 'package:flutter_riverpod/flutter_riverpod.dart';\nimport 'app/app.dart';\n" ++ supabase_imports ++ "\n\nvoid main() async \x7b\n" ++ supabase_init ++ "\n  runApp(\n    const ProviderScope(\n      child: App(),\n    ),\n  );\n\x7d"

def loginRouteStr : String :=
  "GoRoute(\n    path: 'login',\n    name: 'login',\n    builder: (context, state) => const LoginScreen(),\n),"

def registerRouteStr : String :=
  "GoRoute(\n    path: 'register',\n    name: 'register',\n    builder: (context, state) => const RegisterScreen(),\n),"

def forgotPasswordRouteStr : String :=
  "GoRoute(\n    path: 'forgot-password',\n    name: 'forgotPassword',\n    builder: (context, state) => const ForgotPasswordScreen(),\n),"

def homeRouteStr : String :=
  "GoRoute(\n    path: '/',\n    name: 'home',\n    builder: (context, state) => const HomeScreen(),\n),"

def profileRouteStr : String :=
  "GoRoute(\n    path: '/profile',\n    name: 'profile',\n    builder: (context, state) => const ProfileScreen(),\n),"

def settingsRouteStr : String :=
  "GoRoute(\n    path: '/settings',\n    name: 'settings',\n    builder: (context, state) => const SettingsScreen(),\n),"

def defaultHomeRouteStr : String :=
  "GoRoute(\n    path: '/',\n    name: 'home',\n    builder: (context, state) => const HomeScreen(),\n),"

def authRedirectStr : String :=
  "\n    redirect: (context, state) \x7b\n        final isLoggedIn = authService.isLoggedIn();\n        final location = state.matchedLocation;\n        \n        // List of auth-related paths\n        final authPaths = ['/auth', '/auth/login', '/auth/register', '/auth/forgot-password'];\n        \n        // If user is not logged in and trying to access protected routes\n        if (!isLoggedIn && !authPaths.contains(location)) \x7b\n            return '/auth/login';\n        \x7d\n        \n        // If user is logged in and trying to access auth routes\n        if (isLoggedIn && authPaths.contains(location)) \x7b\n            return '/';\n        \x7d\n        \n        return null;\n    \x7d,"

def routerFmtChunk0 : String :=
  ""

def routerFmtChunk1 : String :=
  "\n\nfinal goRouterProvider = Provider<GoRouter>((ref) \x7b\n    "

def routerFmtChunk2 : String :=
  "\n    return GoRouter(\n        initialLocation: '/',"

def routerFmtChunk3 : String :=
  "\n        routes: [\n            "

def routerFmtChunk4 : String :=
  "\n            "

def routerFmtChunk5 : String :=
  "\n            "

def routerFmtChunk6 : String :=
  "\n        ],\n    );\n\x7d);"

def authGroupChunk0 : String :=
  "GoRoute(\n                path: '/auth',\n                name: 'auth',\n                builder: (context, state) => const LoginScreen(),\n                routes: [\n                    "

def authGroupChunk1 : String :=
  "\n                ],\n            ),"

/-- The two imports every riverpod router starts with (src/main.rs:565). -/
def goRouterImportStr : String := "import 'package:go_router/go_router.dart'"

def hooksRiverpodImportStr : String := "import 'package:hooks_riverpod/hooks_riverpod.dart'"

def authProviderImport (project_name : String) : String :=
  "import 'package:" ++ project_name ++ "/core/services/auth_service_provider.dart'"

def loginScreenImport (project_name : String) : String :=
  "import 'package:" ++ project_name ++ "/features/auth/presentation/login_screen.dart'"

def registerScreenImport (project_name : String) : String :=
  "import 'package:" ++ project_name ++ "/features/auth/presentation/register_screen.dart'"

def forgotPasswordScreenImport (project_name : String) : String :=
  "import 'package:" ++ project_name ++ "/features/auth/presentation/forgot_password_screen.dart'"

def homeScreenImport (project_name : String) : String :=
  "import 'package:" ++ project_name ++ "/features/home/presentation/home_screen.dart'"

def profileScreenImport (project_name : String) : String :=
  "import 'package:" ++ project_name ++ "/features/profile/presentation/profile_screen.dart'"

def settingsScreenImport (project_name : String) : String :=
  "import 'package:" ++ project_name ++ "/features/settings/presentation/settings_screen.dart'"

/-- The four accumulators of `generate_router_template`'s feature pass
(src/main.rs:565-571). -/
structure RouterAcc where
  imports : List String
  routes : List String
  auth_routes : List String
  has_auth : Bool
deriving DecidableEq

/-- One iteration of the `for feature in features` pass of
`generate_router_template` (src/main.rs:575-671), mirroring the `match` on
`feature.name` and the nested `if`s of the auth arm. -/
def routerStep (project_name : String) (acc : RouterAcc) (feature : Feature) : RouterAcc :=
  if feature.name = "auth" ∨ feature.name = "login" ∨ feature.name = "register" then
    let acc1 : RouterAcc :=
      { acc with has_auth := true,
                 imports := acc.imports ++ [authProviderImport project_name] }
    let acc2 : RouterAcc :=
      if feature.name = "login" ∨ feature.name = "auth" then
        { acc1 with imports := acc1.imports ++ [loginScreenImport project_name],
                    auth_routes := acc1.auth_routes ++ [loginRouteStr] }
      else acc1
    let acc3 : RouterAcc :=
      if feature.name = "register" then
        { acc2 with imports := acc2.imports ++ [registerScreenImport project_name],
                    auth_routes := acc2.auth_routes ++ [registerRouteStr] }
      else acc2
    if feature.name = "auth" then
      { acc3 with imports := acc3.imports ++ [forgotPasswordScreenImport project_name],
                  auth_routes := acc3.auth_routes ++ [forgotPasswordRouteStr] }
    else acc3
  else if feature.name = "home" then
    { acc with imports := acc.imports ++ [homeScreenImport project_name],
               routes := acc.routes ++ [homeRouteStr] }
  else if feature.name = "profile" then
    { acc with imports := acc.imports ++ [profileScreenImport project_name],
               routes := acc.routes ++ [profileRouteStr] }
  else if feature.name = "settings" then
    { acc with imports := acc.imports ++ [settingsScreenImport project_name],
               routes := acc.routes ++ [settingsRouteStr] }
  else acc

/-- The feature pass of `generate_router_template`, started from the two
fixed imports. -/
def routerScan (project_name : String) (features : List Feature) : RouterAcc :=
  features.foldl (routerStep project_name) ⟨[goRouterImportStr, hooksRiverpodImportStr], [], [], false⟩

/-- The default-home rule (src/main.rs:673-688): if no collected route
contains `path: '/'`, prepend the default home route and append its import. -/
def routerWithDefaultHome (project_name : String) (features : List Feature) : RouterAcc :=
  let acc := routerScan project_name features
  if acc.routes.any (fun r => strContainsB r "path: '/'") then acc
  else { acc with routes := defaultHomeRouteStr :: acc.routes,
                  imports := acc.imports ++ [homeScreenImport project_name] }

def authServiceLineStr : String := "final authService = ref.read(authServiceProvider);"

/-- `generate_router_template` (src/main.rs:555-756). The final `format!` is
written as the concatenation of its literal chunks with the computed pieces. -/
def generate_router_template (project_name : String) (use_riverpod : Bool)
    (features : List Feature) : String :=
  if !use_riverpod then
    "import 'package:go_router/go_router.dart';\n\n// TODO: Implement router"
  else
    let acc := routerWithDefaultHome project_name features
    let auth_redirect := if acc.has_auth then authRedirectStr else ""
    let auth_service := if acc.has_auth then authServiceLineStr else ""
    let auth_group :=
      if acc.has_auth then
        authGroupChunk0 ++ joinSep "\n                    " acc.auth_routes ++ authGroupChunk1
      else ""
    let trailing := if acc.has_auth then "" else ","
    routerFmtChunk0 ++ joinSep ";\n" acc.imports ++ routerFmtChunk1 ++ auth_service
      ++ routerFmtChunk2 ++ auth_redirect ++ routerFmtChunk3
      ++ joinSep ",\n            " acc.routes ++ routerFmtChunk4 ++ auth_group
      ++ routerFmtChunk5 ++ trailing ++ routerFmtChunk6

/-- `create_feature_files` (src/main.rs:168-209): the (path, content) pairs
written for one feature, in write order. -/
def create_feature_files (feature_path : String) (feature_name : String)
    (use_riverpod : Bool) : List (String × String) :=
  [ (joinP (joinP feature_path "data") (feature_name ++ "_repository.dart"),
      "class " ++ pascal_case feature_name ++ "Repository \x7b\n  // TODO: Implement repository\n\x7d"),
    (joinP (joinP feature_path "domain") (feature_name ++ "_model.dart"),
      "class " ++ pascal_case feature_name ++ "Model \x7b\n  // TODO: Implement model\n\x7d"),
    (joinP (joinP feature_path "presentation") (feature_name ++ "_screen.dart"),
      generate_screen_template feature_name) ]
  ++ (if use_riverpod then
        [ (joinP (joinP feature_path "logic") (feature_name ++ "_controller.dart"),
            generate_controller_template feature_name) ]
      else [])

/-- The `core_files` vector of `create_core_files` (src/main.rs:211-521),
paths relative to `lib/core`. -/
def core_files_list (use_supabase : Bool) (project_name : String) : List (String × String) :=
  [ ("constants/app_theme.dart", coreAppThemeContent),
    ("constants/app_colors.dart", coreAppColorsContent),
    ("constants/app_strings.dart", coreAppStringsContent),
    ("utilities/logging.dart", coreLoggingContent),
    ("utilities/permissions.dart", corePermissionsContent),
    ("widgets/custom_button.dart", customButtonContent) ]
  ++ (if use_supabase then
        [ ("services/auth_service.dart", coreAuthServiceContent),
          ("services/auth_service_provider.dart", authServiceProviderContent project_name) ]
      else [])

/-- `create_core_files` (src/main.rs:211-521): each entry is written at
`lib_path.join("core").join(path)`. -/
def create_core_files (lib_path : String) (use_supabase : Bool)
    (project_name : String) : List (String × String) :=
  (core_files_list use_supabase project_name).map
    (fun pc => (joinP (joinP lib_path "core") pc.1, pc.2))

/-- `generate_app_template` (src/main.rs:913); its `_use_riverpod` argument
is unused. -/
def generate_app_template (_use_riverpod : Bool) : String := generate_app_template_content

/-- `create_app_files` (src/main.rs:523-553), in write order (the three
`app_files` entries, then `main.dart`). -/
def create_app_files (lib_path : String) (use_riverpod use_supabase : Bool)
    (features : List Feature) (project_name : String) : List (String × String) :=
  [ (joinP lib_path "app/app.dart", generate_app_template use_riverpod),
    (joinP lib_path "app/router.dart", generate_router_template project_name use_riverpod features),
    (joinP lib_path "theme/app_theme.dart",
      "import 'package:flutter/material.dart';\n\n// TODO: Implement theme") ]
  ++ [ (joinP lib_path "main.dart", generate_main_template use_supabase) ]

/-- The fixed base directories under `lib/` (src/main.rs:113-121). -/
def base_dirs : List String :=
  ["app", "core/constants", "core/utilities", "core/services", "core/widgets", "state", "theme"]

/-- The directories created for one feature (src/main.rs:131-136): one per
layer, plus `widgets` under `presentation`. -/
def featureLayerDirs (feature_path : String) (layers : List String) : List String :=
  layers.flatMap (fun layer =>
    [joinP feature_path layer]
    ++ (if layer = "presentation" then [joinP (joinP feature_path layer) "widgets"] else []))

/-- The ordered list of directories `create_project_structure`
(src/main.rs:104-166) passes to `fs::create_dir_all`. -/
def create_project_structure_dirs (project_name : String) (features : List Feature) : List String :=
  let lib_path := joinP project_name "lib"
  base_dirs.map (joinP lib_path)
  ++ features.flatMap (fun f => featureLayerDirs (joinP (joinP lib_path "features") f.name) f.layers)

/-- The `.env` content written when Supabase is enabled (src/main.rs:156-160). -/
def envFileContent : String :=
  "SUPABASE_URL=your_supabase_url\nSUPABASE_ANON_KEY=your_supabase_anon_key\n"

/-- The ordered list of (path, content) pairs `create_project_structure`
(src/main.rs:104-166) passes to `fs::write`: per-feature files, core files,
app files, then `.env` when Supabase is enabled. -/
def create_project_structure_files (project_name : String) (features : List Feature)
    (use_riverpod use_supabase : Bool) : List (String × String) :=
  let lib_path := joinP project_name "lib"
  features.flatMap (fun f =>
    create_feature_files (joinP (joinP lib_path "features") f.name) f.name use_riverpod)
  ++ create_core_files lib_path use_supabase project_name
  ++ create_app_files lib_path use_riverpod use_supabase features project_name
  ++ (if use_supabase then [(joinP project_name ".env", envFileContent)] else [])

/-- `ProjectSpec`: the immutable inputs collected by `main` before
`create_project_structure` runs. -/
structure ProjectSpec where
  project_name : String
  package_name : String
  features : List Feature
  use_riverpod : Bool
  use_supabase : Bool

/-- All files a run writes, in write order, as (destination path, byte content). -/
def writtenFiles (spec : ProjectSpec) : List (String × String) :=
  create_project_structure_files spec.project_name spec.features
    spec.use_riverpod spec.use_supabase

/-- All directories a run creates, in creation order. -/
def writtenDirs (spec : ProjectSpec) : List String :=
  create_project_structure_dirs spec.project_name spec.features

/-- Outcome of spawning one child process: the spawn itself may fail
(`Command::status()` returns `Err`), or the child runs and exits with a code. -/
inductive CmdOutcome where
  | spawnError : CmdOutcome
  | exited : Int → CmdOutcome
deriving DecidableEq

/-- One external command invocation: program, working directory, argv. -/
structure Cmd where
  program : String
  cwd : Option String
  args : List String
deriving DecidableEq

/-- The environment a run executes in: what each spawned command does. -/
def CmdEnv : Type := Cmd → CmdOutcome

/-- The scaffold call of `main` (src/main.rs:55-65). -/
def flutterCreateCmd (project_name package_name : String) : Cmd :=
  ⟨"flutter", none,
    ["create", project_name, "--org", package_name, "--platforms", "android,ios", "--no-pub"]⟩

/-- The fixed argv prefix of the runtime dependency-add call (src/main.rs:762-779). -/
def basePubAddArgs : List String :=
  ["pub", "add",
   "connectivity_plus", "device_info_plus", "flutter_background_service", "flutter_dotenv",
   "flutter_launcher_icons", "flutter_native_splash", "go_router", "logging", "path",
   "permission_handler", "shadcn_ui", "share_plus", "simple_circular_progress_bar", "sqflite"]

/-- The runtime dependency-add call of `run_flutter_commands`
(src/main.rs:760-793), including the conditional riverpod and supabase args
exactly as the source pushes them. -/
def pubAddCmd (project_name : String) (use_supabase use_riverpod : Bool) : Cmd :=
  ⟨"flutter", some project_name,
    basePubAddArgs
    ++ (if use_riverpod then
          ["hooks_riverpod", "riverpod_annotation", "flutter_riverpod", "flutter_hooks",
           "hooks_riverpod"]
        else [])
    ++ (if use_supabase then ["supabase_flutter"] else [])⟩

/-- The dev dependency-add call (src/main.rs:796-807). -/
def pubAddDevCmd (project_name : String) : Cmd :=
  ⟨"flutter", some project_name,
    ["pub", "add", "--dev", "build_runner", "flutter_lints", "riverpod_generator",
     "very_good_analysis"]⟩

/-- `run_flutter_commands` (src/main.rs:757-810). Each `cmd.status()?;`
aborts on a spawn failure and otherwise binds the exit status without ever
inspecting it. On success the ordered list of issued commands is returned. -/
def run_flutter_commands (env : CmdEnv) (project_name : String)
    (use_supabase use_riverpod : Bool) : Except Unit (List Cmd) :=
  let c1 := pubAddCmd project_name use_supabase use_riverpod
  match env c1 with
  | CmdOutcome.spawnError => Except.error ()
  | CmdOutcome.exited _ =>
    let c2 := pubAddDevCmd project_name
    match env c2 with
    | CmdOutcome.spawnError => Except.error ()
    | CmdOutcome.exited _ => Except.ok [c1, c2]

/-- The external-call sequence of a whole run: the scaffold call made by
`main` (src/main.rs:55-65), then the two dependency-add calls made by
`run_flutter_commands` from the end of `create_project_structure`
(src/main.rs:163). As in the source, each `.status()?` aborts only on a
spawn failure; the exit code is bound and discarded. -/
def externalCallSequence (env : CmdEnv) (project_name package_name : String)
    (use_supabase use_riverpod : Bool) : Except Unit (List Cmd) :=
  match env (flutterCreateCmd project_name package_name) with
  | CmdOutcome.spawnError => Except.error ()
  | CmdOutcome.exited _ =>
    match run_flutter_commands env project_name use_supabase use_riverpod with
    | Except.error e => Except.error e
    | Except.ok cs => Except.ok (flutterCreateCmd project_name package_name :: cs)

/-- Number of emitted route literals that contain `path: '/'` (the predicate
the default-home rule tests, src/main.rs:674). -/
def slashRouteCount (routes : List String) : Nat :=
  routes.countP (fun r => strContainsB r "path: '/'")

/-- Number of features literally named `home`. -/
def homeFeatureCount (features : List Feature) : Nat :=
  features.countP (fun f => f.name == "home")

/-- An environment in which every spawn succeeds and every child exits with
status 1. -/
def allExitOne : CmdEnv := fun _ => CmdOutcome.exited 1

theorem strAppendAssoc (a b c : String) : (a ++ b) ++ c = a ++ (b ++ c) := by
  cases a; cases b; cases c
  exact congrArg String.mk (List.append_assoc _ _ _)

theorem strDataAppend (s t : String) : (s ++ t).data = s.data ++ t.data := by
  cases s; cases t; rfl

theorem strAppendRightNe (p : String) {a b : String} (h : a ≠ b) : p ++ a ≠ p ++ b := by
  cases p with | mk pd =>
  cases a with | mk ad =>
  cases b with | mk bd =>
  intro e
  apply h
  have e2 : pd ++ ad = pd ++ bd := congrArg String.data e
  exact congrArg String.mk (List.append_cancel_left e2)

theorem strContains_appendRight (s t sub : String) (h : StrContains s sub) :
    StrContains (s ++ t) sub := by
  obtain ⟨x, y, hxy⟩ := h
  rw [StrContains, strDataAppend]
  exact ⟨x, y ++ t.data, by rw [← hxy]; simp⟩

theorem strContains_appendLeft (s t sub : String) (h : StrContains t sub) :
    StrContains (s ++ t) sub := by
  obtain ⟨x, y, hxy⟩ := h
  rw [StrContains, strDataAppend]
  exact ⟨s.data ++ x, y, by rw [← hxy]; simp⟩

theorem strContains_self (s : String) : StrContains s s := ⟨[], [], by simp⟩

theorem strContains_joinSep (sep : String) (x : String) :
    ∀ l : List String, x ∈ l → StrContains (joinSep sep l) x := by
  intro l
  induction l with
  | nil => intro h; exact absurd h (List.not_mem_nil x)
  | cons a t ih =>
    intro h
    cases t with
    | nil =>
      rcases List.mem_singleton.mp h with rfl
      exact strContains_self x
    | cons b t2 =>
      rcases List.mem_cons.mp h with rfl | hmem
      · exact strContains_appendRight _ _ _ (strContains_appendRight _ _ _ (strContains_self x))
      · exact strContains_appendLeft _ _ _ (ih hmem)

theorem pascalAux_eq_specAux (l : List Char) :
    ∀ (capitalize : Bool) (prev : Option Char),
      (capitalize = true ↔ (prev = none ∨ prev = some '_')) →
      pascalAux capitalize l = pascalSpecAux prev l := by
  induction l with
  | nil => intro cap prev _; cases cap <;> rfl
  | cons c rest ih =>
    intro cap prev h
    by_cases hc : c = '_'
    · subst hc
      simp only [pascalAux, pascalSpecAux, if_pos rfl]
      exact ih true (some '_') (by simp)
    · cases cap with
      | false =>
        have hprev : ¬(prev = none ∨ prev = some '_') := fun hp => by
          simpa using h.mpr hp
        simp only [pascalAux, pascalSpecAux, if_neg hc, if_neg hprev]
        rw [ih false (some c) (by simp [hc])]
        simp
      | true =>
        have hprev : prev = none ∨ prev = some '_' := h.mp rfl
        simp only [pascalAux, pascalSpecAux, if_neg hc, if_pos hprev]
        rw [ih false (some c) (by simp [hc])]
        simp

/-- C7: `pascal_case` uppercases the first character and every character
immediately following an underscore, drops all underscores, and passes every
other character through unchanged (this is `pascalSpecFn`, the reference
mapping written from the spec's words); and the three required examples hold. -/
theorem pascal_case_correct :
    (∀ s : String, pascal_case s = pascalSpecFn s)
    ∧ pascal_case "forgot_password" = "ForgotPassword"
    ∧ pascal_case "x" = "X"
    ∧ pascal_case "" = "" :=
  ⟨fun s => congrArg String.mk (pascalAux_eq_specAux s.data true none (by simp)),
   by decide, by decide, rfl⟩

theorem pascalAux_false_id (l : List Char) (h : '_' ∉ l) : pascalAux false l = l := by
  induction l with
  | nil => rfl
  | cons c rest ih =>
    simp only [List.mem_cons, not_or] at h
    have hc : c ≠ '_' := fun e => h.1 e.symm
    rw [pascalAux, if_neg hc, if_neg (by simp)]
    rw [ih (fun hm => h.2 hm)]

theorem toUpper_fixed_of_upper {c : Char} (h1 : 'A' ≤ c) (h2 : c ≤ 'Z') :
    Char.toUpper c = c := by
  have hb : c.toNat ≤ 90 := h2
  have : ¬(97 ≤ c.toNat ∧ c.toNat ≤ 122) := by omega
  simp [Char.toUpper, this]

/-- C8: on inputs with no underscore whose first character is an uppercase
letter, `pascal_case` is the identity, hence idempotent. -/
theorem pascal_case_idempotent_on_pascal_inputs (s : String) (c : Char) (rest : List Char)
    (hdata : s.data = c :: rest) (hupA : 'A' ≤ c) (hupZ : c ≤ 'Z') (hund : '_' ∉ s.data) :
    pascal_case s = s ∧ pascal_case (pascal_case s) = pascal_case s := by
  rw [hdata] at hund
  simp only [List.mem_cons, not_or] at hund
  have key : pascal_case s = s := by
    have hc : c ≠ '_' := fun e => hund.1 e.symm
    have haux : pascalAux true (c :: rest) = c :: rest := by
      simp only [pascalAux, if_neg hc, if_pos rfl, toUpper_fixed_of_upper hupA hupZ,
        pascalAux_false_id rest (fun hm => hund.2 hm)]
      simp
    calc pascal_case s = String.mk (pascalAux true s.data) := rfl
      _ = String.mk (c :: rest) := by rw [hdata, haux]
      _ = String.mk s.data := by rw [hdata]
      _ = s := by cases s; rfl
  exact ⟨key, by rw [key]; exact key⟩

/-- Witness for C8 at the concrete input `"Ab"`. -/
theorem pascal_case_idempotent_on_pascal_inputs_witness :
    pascal_case "Ab" = "Ab" ∧ pascal_case (pascal_case "Ab") = pascal_case "Ab" :=
  pascal_case_idempotent_on_pascal_inputs "Ab" 'A' ['b'] rfl (by decide) (by decide) (by decide)

/-- C5 (code bug): with state management enabled the runtime dependency-add
command passes `hooks_riverpod` twice, not once — src/main.rs:781-787 pushes
it both first and last in the riverpod group. -/
theorem hooks_riverpod_added_twice (project_name : String) (use_supabase : Bool) :
    ((pubAddCmd project_name use_supabase true).args.count "hooks_riverpod") = 2 := by
  cases use_supabase <;> rfl

/-- C2 (counterexample): in an environment where every child process exits
with status 1, the whole external-call sequence still issues all three
commands and reports success — the non-zero exit statuses are never
inspected, so the claim that a non-zero status fails the run is false. -/
theorem nonzero_exit_status_not_failing :
    allExitOne (flutterCreateCmd "demo" "com.example.demo") = CmdOutcome.exited 1
    ∧ externalCallSequence allExitOne "demo" "com.example.demo" false false
      = Except.ok [flutterCreateCmd "demo" "com.example.demo",
          pubAddCmd "demo" false false, pubAddDevCmd "demo"] :=
  ⟨rfl, rfl⟩

/-- C2 (amended): the run aborts on an external call only when the spawn
itself fails; whenever all three spawns succeed, the run performs all three
calls and succeeds, regardless of the children's exit codes. -/
theorem run_aborts_only_on_spawn_error (env : CmdEnv)
    (project_name package_name : String) (use_supabase use_riverpod : Bool)
    (h : ∀ c : Cmd, env c ≠ CmdOutcome.spawnError) :
    externalCallSequence env project_name package_name use_supabase use_riverpod
      = Except.ok [flutterCreateCmd project_name package_name,
          pubAddCmd project_name use_supabase use_riverpod,
          pubAddDevCmd project_name] := by
  rcases e0 : env (flutterCreateCmd project_name package_name) with _ | n0
  · exact absurd e0 (h _)
  rcases e1 : env (pubAddCmd project_name use_supabase use_riverpod) with _ | n1
  · exact absurd e1 (h _)
  rcases e2 : env (pubAddDevCmd project_name) with _ | n2
  · exact absurd e2 (h _)
  simp [externalCallSequence, run_flutter_commands, e0, e1, e2]

/-- Witness for the amended C2 in the all-exit-1 environment. -/
theorem run_aborts_only_on_spawn_error_witness :
    externalCallSequence allExitOne "app1" "com.example.app1" true true
      = Except.ok [flutterCreateCmd "app1" "com.example.app1",
          pubAddCmd "app1" true true, pubAddDevCmd "app1"] :=
  run_aborts_only_on_spawn_error allExitOne "app1" "com.example.app1" true true
    (fun c h => CmdOutcome.noConfusion h)

/-- C9: the write plan is a pure function of the `ProjectSpec` — two runs on
identical specs write exactly the same paths with byte-identical contents,
and create the same directories. -/
theorem written_output_deterministic (s t : ProjectSpec) (h : s = t) :
    writtenFiles s = writtenFiles t ∧ writtenDirs s = writtenDirs t := by
  subst h; exact ⟨rfl, rfl⟩

/-- Witness for C9 at a concrete spec. -/
theorem written_output_deterministic_witness :
    writtenFiles ⟨"demo", "com.x.demo", authExpansionFeatures, true, false⟩
      = writtenFiles ⟨"demo", "com.x.demo", authExpansionFeatures, true, false⟩
    ∧ writtenDirs ⟨"demo", "com.x.demo", authExpansionFeatures, true, false⟩
      = writtenDirs ⟨"demo", "com.x.demo", authExpansionFeatures, true, false⟩ :=
  written_output_deterministic _ _ rfl

/-- C10: an entry that is the token `auth` only after trimming surrounding
whitespace is NOT expanded — the loop-termination test trims, but the auth
comparison lowercases the untrimmed input, so the entry is appended verbatim. -/
theorem trimmed_auth_not_expanded (s : String) (fs : List Feature)
    (h1 : rustTrim s ≠ "")
    (h2 : rustToLowercase (rustTrim s) = "auth")
    (h3 : rustToLowercase s ≠ "auth") :
    feature_entry_step s fs = some (fs ++ [Feature.new s]) := by
  unfold feature_entry_step
  rw [if_neg h1, if_neg h3]

/-- Witness for C10 at the concrete entry `" auth"`. -/
theorem trimmed_auth_not_expanded_witness :
    feature_entry_step " auth" [] = some ([] ++ [Feature.new " auth"]) :=
  trimmed_auth_not_expanded " auth" [] (by decide) (by decide) (by decide)

theorem toLower_fixed_of_ws {c : Char} (h : rustIsWhitespace c = true) :
    Char.toLower c = c := by
  have hp := of_decide_eq_true h
  simp only [List.mem_cons, List.not_mem_nil, or_false, List.mem_singleton] at hp
  have hn : ¬(65 ≤ c.toNat ∧ c.toNat ≤ 90) := by omega
  simp [Char.toLower, hn]

theorem not_ws_of_toLower_eq_lower {c d : Char}
    (hd : rustIsWhitespace d = false) (h : Char.toLower c = d) :
    rustIsWhitespace c = false := by
  cases hws : rustIsWhitespace c with
  | false => rfl
  | true =>
    rw [toLower_fixed_of_ws hws] at h
    rw [h] at hws
    rw [hws] at hd
    exact absurd hd (by simp)

theorem dropWhile_append_singleton_ne_nil (p : Char → Bool) (c : Char) (hc : p c = false) :
    ∀ xs : List Char, (xs ++ [c]).dropWhile p ≠ [] := by
  intro xs
  induction xs with
  | nil => simp [List.dropWhile, hc]
  | cons x t ih =>
    by_cases hx : p x = true
    · simpa [List.dropWhile, hx] using ih
    · simp only [Bool.not_eq_true] at hx
      simp [List.dropWhile, hx]

theorem rustTrim_ne_empty_of_head (s : String) (c : Char) (t : List Char)
    (hd : s.data = c :: t) (hc : rustIsWhitespace c = false) :
    rustTrim s ≠ "" := by
  unfold rustTrim
  rw [hd]
  rw [List.dropWhile_cons_of_neg (by simp [hc])]
  intro e
  have e2 : (((c :: t).reverse.dropWhile rustIsWhitespace).reverse : List Char) = [] :=
    congrArg String.data e
  rw [List.reverse_eq_nil_iff] at e2
  have : ((c :: t).reverse : List Char) = t.reverse ++ [c] := by simp
  rw [this] at e2
  exact dropWhile_append_singleton_ne_nil rustIsWhitespace c hc t.reverse e2

/-- C6 (amended): an entry whose lowercase form is `auth` is never appended
itself; instead `login`, `register`, `forgot_password` are appended in that
order.  Every other entry that is non-empty AFTER TRIMMING appends exactly
one feature carrying the entered name verbatim.  (Inputs that are non-empty
but consist of whitespace terminate the loop instead — see the
counterexample.) -/
theorem feature_entry_step_spec (s : String) (fs : List Feature) :
    (rustToLowercase s = "auth" →
      feature_entry_step s fs = some (fs ++ authExpansionFeatures))
    ∧ (rustTrim s ≠ "" → rustToLowercase s ≠ "auth" →
      feature_entry_step s fs = some (fs ++ [Feature.new s])) := by
  constructor
  · intro h2
    have hm : s.data.map Char.toLower = ['a', 'u', 't', 'h'] := congrArg String.data h2
    have htrim : rustTrim s ≠ "" := by
      cases hd : s.data with
      | nil => rw [hd] at hm; exact absurd hm (by simp)
      | cons c0 t0 =>
        rw [hd] at hm
        simp only [List.map_cons, List.cons.injEq] at hm
        exact rustTrim_ne_empty_of_head s c0 t0 hd
          (not_ws_of_toLower_eq_lower (by decide) hm.1)
    unfold feature_entry_step
    rw [if_neg htrim, if_pos h2]
    rfl
  · intro h1 h3
    unfold feature_entry_step
    rw [if_neg h1, if_neg h3]

/-- Witness for the amended C6: `AUTH` expands, `profile` is appended verbatim. -/
theorem feature_entry_step_spec_witness :
    feature_entry_step "AUTH" [] = some ([] ++ authExpansionFeatures)
    ∧ feature_entry_step "profile" [] = some ([] ++ [Feature.new "profile"]) :=
  ⟨(feature_entry_step_spec "AUTH" []).1 (by decide),
   (feature_entry_step_spec "profile" []).2 (by decide) (by decide)⟩

/-- C6 (counterexample): the whitespace entry `" "` is a non-empty input
whose lowercase form is not `auth`, yet no feature is appended — the loop
terminates because the termination test trims the input first. -/
theorem whitespace_entry_terminates_loop :
    feature_entry_step " " [] = none
    ∧ (" " : String) ≠ ""
    ∧ rustToLowercase " " ≠ "auth" := by decide

theorem slashRouteCount_append (l : List String) (x : String) :
    slashRouteCount (l ++ [x])
      = slashRouteCount l + (if strContainsB x "path: '/'" then 1 else 0) := by
  simp [slashRouteCount, List.countP_append, List.countP_cons]

theorem slashRouteCount_routerStep (pn : String) (acc : RouterAcc) (f : Feature) :
    slashRouteCount ((routerStep pn acc f).routes)
      = slashRouteCount acc.routes + (if f.name == "home" then 1 else 0) := by
  by_cases h1 : f.name = "auth" ∨ f.name = "login" ∨ f.name = "register"
  · have hnh : (f.name == "home") = false := by
      rcases h1 with h | h | h <;> rw [h] <;> rfl
    rw [hnh]
    simp only [routerStep, if_pos h1]
    split <;> split <;> split <;> simp
  · by_cases h2 : f.name = "home"
    · rw [h2]
      simp only [routerStep, if_neg h1, if_pos h2]
      rw [slashRouteCount_append]
      simp [show strContainsB homeRouteStr "path: '/'" = true from by decide]
    · have hnh : (f.name == "home") = false := by
        cases hb : f.name == "home"
        · rfl
        · exact absurd (by simpa using hb) h2
      rw [hnh]
      by_cases h3 : f.name = "profile"
      · simp only [routerStep, if_neg h1, if_neg h2, if_pos h3]
        rw [slashRouteCount_append]
        simp [show strContainsB profileRouteStr "path: '/'" = false from by decide]
      · by_cases h4 : f.name = "settings"
        · simp only [routerStep, if_neg h1, if_neg h2, if_neg h3, if_pos h4]
          rw [slashRouteCount_append]
          simp [show strContainsB settingsRouteStr "path: '/'" = false from by decide]
        · simp only [routerStep, if_neg h1, if_neg h2, if_neg h3, if_neg h4]
          simp

theorem slashRouteCount_routerFold (pn : String) (feats : List Feature) :
    ∀ acc : RouterAcc,
      slashRouteCount ((List.foldl (routerStep pn) acc feats).routes)
        = slashRouteCount acc.routes + homeFeatureCount feats := by
  induction feats with
  | nil => intro acc; simp [homeFeatureCount]
  | cons f t ih =>
    intro acc
    simp only [List.foldl_cons]
    rw [ih (routerStep pn acc f), slashRouteCount_routerStep]
    simp only [homeFeatureCount, List.countP_cons]
    cases hb : f.name == "home" <;> simp [hb] <;> omega

theorem slashRouteCount_routerScan (pn : String) (feats : List Feature) :
    slashRouteCount ((routerScan pn feats).routes) = homeFeatureCount feats := by
  unfold routerScan
  rw [slashRouteCount_routerFold]
  simp [slashRouteCount]

theorem routerScan_any_slash (pn : String) (feats : List Feature) :
    ((routerScan pn feats).routes.any (fun r => strContainsB r "path: '/'"))
      = (homeFeatureCount feats != 0) := by
  have hcount := slashRouteCount_routerScan pn feats
  cases hb : ((routerScan pn feats).routes.any (fun r => strContainsB r "path: '/'")) with
  | false =>
    have h0 : slashRouteCount ((routerScan pn feats).routes) = 0 := by
      simp only [slashRouteCount, List.countP_eq_zero]
      intro a ha hp
      have ht : ((routerScan pn feats).routes.any (fun r => strContainsB r "path: '/'")) = true :=
        List.any_eq_true.mpr ⟨a, ha, hp⟩
      rw [hb] at ht
      exact Bool.noConfusion ht
    rw [hcount] at h0
    simp [h0]
  | true =>
    obtain ⟨a, ha, hp⟩ := List.any_eq_true.mp hb
    have hne : slashRouteCount ((routerScan pn feats).routes) ≠ 0 := by
      simp only [slashRouteCount, Ne, List.countP_eq_zero]
      intro hall
      exact absurd hp (by simpa using hall a ha)
    rw [hcount] at hne
    simp [bne_iff_ne, hne]

/-- C3 (amended): with state management on, the synthesized route list
contains `max 1 k` routes whose text contains `path: '/'`, where `k` is the
number of `home` entries in the feature list — exactly one unless `home` was
entered more than once; and precisely when no feature contributed a `/`
route, the default home route is prepended and its home-screen import
appended. -/
theorem root_route_count_formula (pn : String) (feats : List Feature) :
    slashRouteCount ((routerWithDefaultHome pn feats).routes)
      = (if homeFeatureCount feats = 0 then 1 else homeFeatureCount feats)
    ∧ (routerWithDefaultHome pn feats).routes
      = (if homeFeatureCount feats = 0
          then defaultHomeRouteStr :: (routerScan pn feats).routes
          else (routerScan pn feats).routes)
    ∧ (routerWithDefaultHome pn feats).imports
      = (if homeFeatureCount feats = 0
          then (routerScan pn feats).imports ++ [homeScreenImport pn]
          else (routerScan pn feats).imports) := by
  have hsplit := routerScan_any_slash pn feats
  by_cases h0 : homeFeatureCount feats = 0
  · have hb : ((routerScan pn feats).routes.any (fun r => strContainsB r "path: '/'")) = false := by
      rw [hsplit, h0]
      rfl
    have hacc : routerWithDefaultHome pn feats =
        { imports := (routerScan pn feats).imports ++ [homeScreenImport pn],
          routes := defaultHomeRouteStr :: (routerScan pn feats).routes,
          auth_routes := (routerScan pn feats).auth_routes,
          has_auth := (routerScan pn feats).has_auth } := by
      simp only [routerWithDefaultHome, hb]
      simp
    rw [hacc]
    have hzero : slashRouteCount ((routerScan pn feats).routes) = 0 := by
      rw [slashRouteCount_routerScan, h0]
    refine ⟨?_, by simp [h0], by simp [h0]⟩
    simp only [slashRouteCount, List.countP_cons] at hzero ⊢
    rw [hzero, h0]
    decide
  · have hb : ((routerScan pn feats).routes.any (fun r => strContainsB r "path: '/'")) = true := by
      rw [hsplit]
      simpa [bne_iff_ne] using h0
    have hacc : routerWithDefaultHome pn feats = routerScan pn feats := by
      simp only [routerWithDefaultHome, hb]
      simp
    rw [hacc]
    exact ⟨by rw [slashRouteCount_routerScan, if_neg h0], by rw [if_neg h0], by rw [if_neg h0]⟩

/-- C3 (counterexample): entering `home` twice yields a route list with two
routes whose path is `/` — the claimed "exactly one" fails on feature lists
with duplicate entries. -/
theorem duplicate_home_two_root_routes :
    slashRouteCount ((routerWithDefaultHome "demo"
        [Feature.new "home", Feature.new "home"]).routes) = 2
    ∧ slashRouteCount ((routerWithDefaultHome "demo"
        [Feature.new "home", Feature.new "home"]).routes) ≠ 1 := by
  constructor
  · decide
  · decide

/-- C1 (counterexample): after the `auth` entry expands to
`login, register, forgot_password`, the router pass collects only TWO nested
auth routes (`login` and `register`); no emitted route, import, or nested
auth route mentions `forgotPassword` or `forgot-password`, because the
forgot-password route is only generated for a feature literally named `auth`,
which the expansion never produces. -/
theorem router_auth_entry_no_forgot_password_route :
    feature_entry_step "auth" [] = some authExpansionFeatures
    ∧ (routerScan "demo" authExpansionFeatures).auth_routes
      = [loginRouteStr, registerRouteStr]
    ∧ ((routerScan "demo" authExpansionFeatures).auth_routes.any
        (fun r => strContainsB r "forgotPassword")) = false
    ∧ ((routerWithDefaultHome "demo" authExpansionFeatures).routes.any
        (fun r => strContainsB r "forgotPassword")) = false
    ∧ ((routerWithDefaultHome "demo" authExpansionFeatures).imports.any
        (fun s => strContainsB s "forgot")) = false := by
  refine ⟨by decide, by decide, by decide, by decide, by decide⟩

/-- C1 (amended): for the `auth` entry (state management on), the emitted
router contains the `/auth` route group, but with exactly the two nested
routes `login` (path `login`) and `register` (path `register`); the
`forgotPassword` nested route is absent. -/
theorem router_auth_entry_two_nested_auth_routes (pn : String) :
    (routerScan pn authExpansionFeatures).auth_routes = [loginRouteStr, registerRouteStr]
    ∧ (routerScan pn authExpansionFeatures).has_auth = true
    ∧ StrContains (generate_router_template pn true authExpansionFeatures)
        (authGroupChunk0 ++ joinSep "\n                    " [loginRouteStr, registerRouteStr]
          ++ authGroupChunk1) := by
  refine ⟨rfl, rfl, ?_⟩
  show StrContains
    (routerFmtChunk0
      ++ joinSep ";\n" (routerWithDefaultHome pn authExpansionFeatures).imports
      ++ routerFmtChunk1 ++ authServiceLineStr
      ++ routerFmtChunk2 ++ authRedirectStr ++ routerFmtChunk3
      ++ joinSep ",\n            " (routerWithDefaultHome pn authExpansionFeatures).routes
      ++ routerFmtChunk4
      ++ (authGroupChunk0
          ++ joinSep "\n                    " [loginRouteStr, registerRouteStr]
          ++ authGroupChunk1)
      ++ routerFmtChunk5 ++ "" ++ routerFmtChunk6) _
  apply strContains_appendRight
  apply strContains_appendRight
  apply strContains_appendRight
  apply strContains_appendLeft
  exact strContains_self _

/-- C4: for features `[login]` with state management on and Supabase off,
the emitted router imports `core/services/auth_service_provider.dart`
prefixed with `package:<project_name>/` and contains the auth redirect
block, yet the write plan contains no file at
`<project>/lib/core/services/auth_service_provider.dart` — the router
references a module that is never written. -/
theorem login_router_imports_provider_but_no_provider_file (pn pkg : String) :
    authProviderImport pn ∈ (routerWithDefaultHome pn [Feature.new "login"]).imports
    ∧ StrContains (generate_router_template pn true [Feature.new "login"])
        (authProviderImport pn)
    ∧ StrContains (generate_router_template pn true [Feature.new "login"]) authRedirectStr
    ∧ joinP (joinP (joinP pn "lib") "core") "services/auth_service_provider.dart"
        ∉ (writtenFiles ⟨pn, pkg, [Feature.new "login"], true, false⟩).map Prod.fst := by
  refine ⟨?_, ?_, ?_, ?_⟩
  · show authProviderImport pn ∈
      [goRouterImportStr, hooksRiverpodImportStr, authProviderImport pn,
       loginScreenImport pn, homeScreenImport pn]
    simp
  · show StrContains
      (routerFmtChunk0
        ++ joinSep ";\n" [goRouterImportStr, hooksRiverpodImportStr, authProviderImport pn,
             loginScreenImport pn, homeScreenImport pn]
        ++ routerFmtChunk1 ++ authServiceLineStr
        ++ routerFmtChunk2 ++ authRedirectStr ++ routerFmtChunk3
        ++ joinSep ",\n            " [defaultHomeRouteStr]
        ++ routerFmtChunk4
        ++ (authGroupChunk0 ++ joinSep "\n                    " [loginRouteStr]
            ++ authGroupChunk1)
        ++ routerFmtChunk5 ++ "" ++ routerFmtChunk6) _
    apply strContains_appendRight
    apply strContains_appendRight
    apply strContains_appendRight
    apply strContains_appendRight
    apply strContains_appendRight
    apply strContains_appendRight
    apply strContains_appendRight
    apply strContains_appendRight
    apply strContains_appendRight
    apply strContains_appendRight
    apply strContains_appendRight
    apply strContains_appendLeft
    exact strContains_joinSep _ _ _ (by simp)
  · show StrContains
      (routerFmtChunk0
        ++ joinSep ";\n" [goRouterImportStr, hooksRiverpodImportStr, authProviderImport pn,
             loginScreenImport pn, homeScreenImport pn]
        ++ routerFmtChunk1 ++ authServiceLineStr
        ++ routerFmtChunk2 ++ authRedirectStr ++ routerFmtChunk3
        ++ joinSep ",\n            " [defaultHomeRouteStr]
        ++ routerFmtChunk4
        ++ (authGroupChunk0 ++ joinSep "\n                    " [loginRouteStr]
            ++ authGroupChunk1)
        ++ routerFmtChunk5 ++ "" ++ routerFmtChunk6) _
    apply strContains_appendRight
    apply strContains_appendRight
    apply strContains_appendRight
    apply strContains_appendRight
    apply strContains_appendRight
    apply strContains_appendRight
    apply strContains_appendRight
    apply strContains_appendLeft
    exact strContains_self _
  · simp [writtenFiles, create_project_structure_files, create_feature_files,
      create_core_files, core_files_list, create_app_files, joinP, strAppendAssoc, Feature.new]
    refine ⟨?_, ?_, ?_, ?_, ?_, ?_, ?_, ?_, ?_, ?_, ?_, ?_, ?_, ?_⟩ <;>
      exact strAppendRightNe pn (by decide)
